import Mathlib

/-!
Verification of the NDVI Flask backend (src/app.py).

The Earth Engine catalog, spatial reducer, date formatter and tile
renderer are remote services; they enter the model as parameters
(a list of catalog images, a reducer `Image → Option ℚ`, a formatter
`Millis → String`, a tile renderer `Image → String`).  Everything the
Python file itself computes — date-window filtering, nearest-date
selection via sort on the date_diff property, NDVI rescaling,
days_difference, time-series extraction and sorting, bloom detection,
and the route-level status/error logic — is embedded below.
-/

/-- Epoch milliseconds, the unit of the catalog property system:time_start. -/
abbrev Millis := Int

/-- A catalog image record: only its timestamp matters to the code under
verification; band contents live behind the reducer parameter. -/
structure Image where
  time_start : Millis
deriving Repr, DecidableEq, Inhabited

/-- GeoJSON polygon coordinates (list of rings of lon/lat pairs), as read
from the request body.  The handlers only test its presence and pass it
to the remote service, so its internal structure is never inspected. -/
abbrev Geometry := List (List (ℚ × ℚ))

/-- One element of the time_series list built by get_ndvi_history. -/
structure Sample where
  date : String
  ndvi : ℚ
  timestamp : Millis
deriving Repr, DecidableEq, Inhabited

/-- One element of the blooms list built by get_ndvi_history. -/
structure Bloom where
  date : String
  ndvi : ℚ
  increase : ℚ
deriving Repr, DecidableEq, Inhabited

/-- Properties of one feature returned by modis.map(compute_mean):
the ndvi property is null when the reducer found no pixels. -/
structure FeatureProps where
  date : String
  ndvi : Option ℚ
  timestamp : Millis
deriving Repr, DecidableEq

/-- Module-level startup state: app.py lines 16-17 (ee_initialized,
init_error).  The field ee_init_ok models the Python global
ee_initialized; init_error holds the captured exception string. -/
structure EEState where
  ee_init_ok : Bool
  init_error : String
deriving Repr, DecidableEq

/-- Request body of POST /get-ndvi-tile-url: target_date, already parsed
to the epoch-millis instant of that calendar date at midnight UTC
(ee.Date of a YYYY-MM-DD string).  none models an absent field. -/
structure TileRequest where
  target_date : Option Millis
deriving Repr, DecidableEq

/-- Request body of POST /calculate-ndvi and /get-ndvi-history. -/
structure NdviRequest where
  geometry : Option Geometry
  target_date : Option Millis
deriving Repr, DecidableEq

/-- Response of /get-ndvi-tile-url: an error with HTTP status, or the
success body (tile_url, date) of line 337. -/
inductive TileResult where
  | err (status : Nat) (error : String)
  | ok (tile_url : String) (date : String)
deriving Repr, DecidableEq

/-- Response of /calculate-ndvi: an error with HTTP status, or the
success body (ndvi, date, days_difference) of line 431. -/
inductive CalcResult where
  | err (status : Nat) (error : String)
  | ok (ndvi : ℚ) (date : String) (days_difference : Int)
deriving Repr, DecidableEq

/-- Response of /get-ndvi-history: an error with HTTP status, or the
success body (time_series, blooms) of line 546. -/
inductive HistResult where
  | err (status : Nat) (error : String)
  | ok (time_series : List Sample) (blooms : List Bloom)
deriving Repr, DecidableEq

/-- Milliseconds in one day, the unit of ee.Date.advance(n, day). -/
def dayMillis : Int := 86400000

/-- ee.ImageCollection.filterDate: keeps images whose system:time_start
lies in the half-open window [start, stop). -/
def filterDate (start stop : Millis) (l : List Image) : List Image :=
  l.filter fun img => decide (start ≤ img.time_start) && decide (img.time_start < stop)

/-- app.py lines 397-399: attach the date_diff property
abs(system:time_start − target.millis()) to an image. -/
def add_date_diff (target : Millis) (img : Image) : Image × Nat :=
  (img, (img.time_start - target).natAbs)

/-- app.py lines 401-402: modis.map(add_date_diff).sort(date_diff).first().
The collection sort is modelled by a stable merge sort on the date_diff
property; first() of an empty collection is none. -/
def select_closest (target : Millis) (l : List Image) : Option Image :=
  (((l.map (add_date_diff target)).mergeSort fun a b => a.2 ≤ b.2).head?).map Prod.fst

/-- app.py line 427 (and line 503): MODIS stores NDVI ×10000, so the raw
reduced value is divided by 10000.0. -/
def rescale_ndvi (raw : ℚ) : ℚ := raw / 10000

/-- app.py lines 405-411: image_date = fromtimestamp(millis/1000),
days_diff = (image_date − strptime(target_date)).days.  Both instants
are on the UTC timeline in milliseconds; timedelta.days is the floor of
the difference in days, hence Int.fdiv (floor division). -/
def days_difference (image_millis target_millis : Millis) : Int :=
  Int.fdiv (image_millis - target_millis) dayMillis

/-- app.py line 531: the NDVI increase threshold for bloom detection. -/
def threshold : ℚ := 15 / 100

/-- The bloom record appended at app.py lines 538-542: the later
sample's date and ndvi, and the increase over its predecessor. -/
def mkBloom (current previous : Sample) : Bloom :=
  Bloom.mk current.date current.ndvi (current.ndvi - previous.ndvi)

/-- app.py lines 530-542: for i in range(1, len(time_series)), emit a
bloom whenever time_series[i].ndvi − time_series[i−1].ndvi > threshold. -/
def detect_blooms (time_series : List Sample) : List Bloom :=
  (List.range' 1 (time_series.length - 1)).filterMap fun i =>
    match time_series[i]?, time_series[i-1]? with
    | some current, some previous =>
      if threshold < current.ndvi - previous.ndvi then some (mkBloom current previous)
      else none
    | _, _ => none

/-- The bloom record built from positions i and i−1 of a sample list
(total version used to state index correspondence). -/
def bloomAt (time_series : List Sample) (i : Nat) : Bloom :=
  mkBloom (time_series.getD i default) (time_series.getD (i-1) default)

/-- app.py lines 493-505: compute_mean builds a feature whose ndvi
property is the reduced regional mean divided by 10000, null when the
reducer yields nothing for the polygon (null propagates through
ee.Number.divide). -/
def compute_mean (reduce : Image → Option ℚ) (fmt : Millis → String) (img : Image) :
    FeatureProps :=
  FeatureProps.mk (fmt img.time_start) ((reduce img).map rescale_ndvi) img.time_start

/-- app.py lines 514-522: keep only features whose ndvi property is not
None, turning each into a time-series entry. -/
def extract_time_series (features : List FeatureProps) : List Sample :=
  features.filterMap fun props =>
    match props.ndvi with
    | some v => some (Sample.mk props.date v props.timestamp)
    | none => none

/-- app.py line 525: time_series.sort(key=timestamp) — Python list.sort
is a stable merge sort. -/
def sort_time_series (time_series : List Sample) : List Sample :=
  time_series.mergeSort fun a b => a.timestamp ≤ b.timestamp

/-- Route handler of POST /get-ndvi-tile-url (app.py lines 262-349).
External effects are parameters: catalog is the MODIS/061/MOD13Q1
collection with the NDVI band selected, tile_of renders getMapId's
tile URL, fmt formats an epoch-millis instant as YYYY-MM-DD. -/
def get_ndvi_tile_url (st : EEState) (req : Option TileRequest) (catalog : List Image)
    (tile_of : Image → String) (fmt : Millis → String) : TileResult :=
  if st.ee_init_ok = false then
    TileResult.err 500 ("Earth Engine not initialized: " ++ st.init_error)
  else
    match req with
    | none => TileResult.err 400 "No JSON data provided"
    | some data =>
      match data.target_date with
      | none => TileResult.err 400 "No target date provided"
      | some target =>
        let modis := filterDate (target - 30 * dayMillis) (target + 30 * dayMillis) catalog
        if modis.length = 0 then
          TileResult.err 400 "No MODIS data available for the specified date range"
        else
          match select_closest target modis with
          | none => TileResult.err 500 "Internal server error"
          | some closest => TileResult.ok (tile_of closest) (fmt closest.time_start)

/-- Route handler of POST /calculate-ndvi (app.py lines 351-446).
bounds models filterBounds against the request polygon; reduce models
reduceRegion(mean, geometry, 250).get(NDVI), none when null. -/
def calculate_ndvi (st : EEState) (req : Option NdviRequest) (catalog : List Image)
    (bounds : Image → Bool) (reduce : Image → Option ℚ) (fmt : Millis → String) :
    CalcResult :=
  if st.ee_init_ok = false then
    CalcResult.err 500 ("Earth Engine not initialized: " ++ st.init_error)
  else
    match req with
    | none => CalcResult.err 400 "No JSON data provided"
    | some data =>
      match data.geometry with
      | none => CalcResult.err 400 "No geometry provided"
      | some _ =>
        match data.target_date with
        | none => CalcResult.err 400 "No target date provided"
        | some target =>
          let modis := filterDate (target - 30 * dayMillis) (target + 30 * dayMillis)
            (catalog.filter bounds)
          if modis.length = 0 then
            CalcResult.err 400 "No MODIS data available within 30 days of the target date"
          else
            match select_closest target modis with
            | none => CalcResult.err 500 "Internal server error"
            | some closest =>
              let days_diff := days_difference closest.time_start target
              match reduce closest with
              | none => CalcResult.err 400 "No NDVI data available for this area"
              | some raw =>
                CalcResult.ok (rescale_ndvi raw) (fmt closest.time_start) days_diff

/-- Route handler of POST /get-ndvi-history (app.py lines 448-558). -/
def get_ndvi_history (st : EEState) (req : Option NdviRequest) (catalog : List Image)
    (bounds : Image → Bool) (reduce : Image → Option ℚ) (fmt : Millis → String) :
    HistResult :=
  if st.ee_init_ok = false then
    HistResult.err 500 ("Earth Engine not initialized: " ++ st.init_error)
  else
    match req with
    | none => HistResult.err 400 "No JSON data provided"
    | some data =>
      match data.geometry with
      | none => HistResult.err 400 "No geometry provided"
      | some _ =>
        match data.target_date with
        | none => HistResult.err 400 "No target date provided"
        | some target =>
          let modis := filterDate (target - 365 * dayMillis) target (catalog.filter bounds)
          if modis.length = 0 then
            HistResult.err 400 "No MODIS data available for this area in the past year"
          else
            let features := modis.map (compute_mean reduce fmt)
            if features.length = 0 then
              HistResult.err 400 "No NDVI data available for this area in the past year"
            else
              let time_series := sort_time_series (extract_time_series features)
              let blooms := detect_blooms time_series
              HistResult.ok time_series blooms

/-- Body of the /health response (app.py lines 119-129), restricted to
the fields the code computes itself; the Earth Engine self-test
outcomes of lines 99-117 are wrapped in try/except and enter as
parameters. -/
structure HealthBody where
  status : String
  ee_init_ok : Bool
  ee_test_details : Option String
  ee_test_error : Option String
  init_error : String
deriving Repr, DecidableEq

/-- Route handler of GET /health (app.py lines 92-132): every branch of
the handler falls through to jsonify(health_status), HTTP status 200. -/
def health (st : EEState) (ee_test_details ee_test_error : Option String) :
    Nat × HealthBody :=
  (200, HealthBody.mk "ok" st.ee_init_ok ee_test_details ee_test_error st.init_error)

/-! ## Helper lemmas -/

/-- Sanity check: with target 0, the image at −3 ms beats the one at 5 ms. -/
example : select_closest 0 [Image.mk 5, Image.mk (-3)] = some (Image.mk (-3)) := by
  simp [select_closest, add_date_diff, List.mergeSort, List.merge]

/-- The head of a stable merge sort by a natural-number key is the first
element of the input attaining the minimal key. -/
theorem mergeSort_head_first_min {α : Type} (key : α → Nat) :
    ∀ l : List α, l ≠ [] →
      ∃ a l₁ l₂,
        (l.mergeSort fun x y => key x ≤ key y).head? = some a ∧
        l = l₁ ++ a :: l₂ ∧
        (∀ x ∈ l₁, key a < key x) ∧
        (∀ x ∈ l, key a ≤ key x) := by
  have htrans : ∀ x y z : α, decide (key x ≤ key y) = true →
      decide (key y ≤ key z) = true → decide (key x ≤ key z) = true := by
    intro x y z hxy hyz
    simp only [decide_eq_true_eq] at hxy hyz ⊢
    omega
  have htotal : ∀ x y : α,
      (decide (key x ≤ key y) || decide (key y ≤ key x)) = true := by
    intro x y
    rcases Nat.le_total (key x) (key y) with h | h <;> simp [h]
  intro l
  induction l with
  | nil => intro h; exact absurd rfl h
  | cons a rest ih =>
    intro _
    obtain ⟨m₁, m₂, hsort, hrest, hsmall⟩ :=
      @List.mergeSort_cons α (fun x y => decide (key x ≤ key y)) htrans htotal a rest
    cases m₁ with
    | nil =>
      refine ⟨a, [], rest, ?_, rfl, by simp, ?_⟩
      · rw [hsort]; rfl
      · intro x hx
        have hsorted := List.sorted_mergeSort htrans htotal (a :: rest)
        rw [hsort] at hsorted
        have hx' : x ∈ List.mergeSort (a :: rest) fun x y => decide (key x ≤ key y) :=
          List.mem_mergeSort.mpr hx
        rw [hsort] at hx'
        rcases List.mem_cons.mp hx' with h | h
        · simp [h]
        · have := (List.pairwise_cons.mp hsorted).1 x h
          simpa using this
    | cons c m₁t =>
      have hrestne : rest ≠ [] := by
        intro hemp
        rw [hemp] at hrest
        simp [List.mergeSort] at hrest
      obtain ⟨b, r₁, r₂, hbhead, hbsplit, hbstrict, hbmin⟩ := ih hrestne
      have hbc : b = c := by
        rw [hrest] at hbhead
        simpa using hbhead.symm
      have hca : key c < key a := by
        have := hsmall c (by simp)
        simpa using this
      refine ⟨b, a :: r₁, r₂, ?_, by rw [hbsplit]; rfl, ?_, ?_⟩
      · rw [hsort, hbc]; rfl
      · intro x hx
        rcases List.mem_cons.mp hx with h | h
        · rw [h, hbc]; exact hca
        · exact hbstrict x h
      · intro x hx
        rcases List.mem_cons.mp hx with h | h
        · rw [h, hbc]; omega
        · exact hbmin x h

/-- select_closest is the head of the catalog list merge-sorted by
absolute timestamp distance from the target. -/
theorem select_closest_eq_head (target : Millis) (l : List Image) :
    select_closest target l =
      (l.mergeSort fun x y =>
        (x.time_start - target).natAbs ≤ (y.time_start - target).natAbs).head? := by
  unfold select_closest
  have hkey : ((l.map (add_date_diff target)).mergeSort fun a b => a.2 ≤ b.2) =
      ((l.mergeSort fun x y =>
        (x.time_start - target).natAbs ≤ (y.time_start - target).natAbs).map
          (add_date_diff target)) :=
    (@List.map_mergeSort Image (Image × Nat)
      (fun x y => (x.time_start - target).natAbs ≤ (y.time_start - target).natAbs)
      (fun a b => a.2 ≤ b.2) (add_date_diff target) l (fun a _ b _ => rfl)).symm
  rw [hkey, List.head?_map, Option.map_map]
  have hid : (Prod.fst ∘ add_date_diff target) = id := rfl
  rw [hid, Option.map_id]
  rfl

/-! ## Claim theorems -/

/-- C1: for every non-empty filtered collection, the image selected by
add_date_diff, sort on date_diff and first minimizes the absolute
timestamp distance to the target over the whole collection, and a tie
between equidistant images resolves deterministically to the earliest
image in collection order (the sort is stable). -/
theorem select_closest_minimizes_abs_diff (target : Millis) (l : List Image)
    (h : l ≠ []) :
    ∃ img l₁ l₂,
      select_closest target l = some img ∧ img ∈ l ∧
      (∀ x ∈ l, (img.time_start - target).natAbs ≤ (x.time_start - target).natAbs) ∧
      l = l₁ ++ img :: l₂ ∧
      (∀ x ∈ l₁, (img.time_start - target).natAbs < (x.time_start - target).natAbs) := by
  obtain ⟨a, l₁, l₂, hhead, hsplit, hstrict, hmin⟩ :=
    mergeSort_head_first_min (fun x => (x.time_start - target).natAbs) l h
  refine ⟨a, l₁, l₂, (select_closest_eq_head target l).trans hhead, ?_, hmin, hsplit, hstrict⟩
  rw [hsplit]
  simp

/-- C1 witness: a concrete two-image collection around target 0. -/
theorem select_closest_minimizes_abs_diff_witness :
    ∃ img l₁ l₂,
      select_closest 0 [Image.mk 5, Image.mk (-3)] = some img ∧
      img ∈ [Image.mk 5, Image.mk (-3)] ∧
      (∀ x ∈ [Image.mk 5, Image.mk (-3)],
        (img.time_start - 0).natAbs ≤ (x.time_start - 0).natAbs) ∧
      [Image.mk 5, Image.mk (-3)] = l₁ ++ img :: l₂ ∧
      (∀ x ∈ l₁, (img.time_start - 0).natAbs < (x.time_start - 0).natAbs) :=
  select_closest_minimizes_abs_diff 0 [Image.mk 5, Image.mk (-3)] (by decide)

/-- C2: a bloom event is emitted exactly for list positions i ≥ 1 whose
ndvi exceeds the immediately preceding element by strictly more than
0.15, and the event carries the later sample's date, its ndvi, and the
difference of the two adjacent ndvi values. -/
theorem detect_blooms_characterization (ts : List Sample) (b : Bloom) :
    b ∈ detect_blooms ts ↔
      ∃ i current previous, 1 ≤ i ∧
        ts[i]? = some current ∧ ts[i-1]? = some previous ∧
        threshold < current.ndvi - previous.ndvi ∧
        b = Bloom.mk current.date current.ndvi (current.ndvi - previous.ndvi) := by
  unfold detect_blooms
  rw [List.mem_filterMap]
  constructor
  · rintro ⟨i, hmem, hf⟩
    obtain ⟨h1, h2⟩ := List.mem_range'_1.mp hmem
    split at hf
    · rename_i current previous hcur hprev
      split at hf
      · rename_i hthr
        exact ⟨i, current, previous, h1, hcur, hprev, hthr, (Option.some_inj.mp hf).symm⟩
      · exact absurd hf (by simp)
    · exact absurd hf (by simp)
  · rintro ⟨i, current, previous, h1, hcur, hprev, hthr, rfl⟩
    obtain ⟨hilen, hget⟩ := List.getElem?_eq_some_iff.mp hcur
    refine ⟨i, List.mem_range'_1.mpr ⟨h1, by omega⟩, ?_⟩
    rw [hcur, hprev]
    show (if threshold < current.ndvi - previous.ndvi then some (mkBloom current previous)
      else none) =
      some (Bloom.mk current.date current.ndvi (current.ndvi - previous.ndvi))
    rw [if_pos hthr]
    rfl

/-- C4: NDVI rescaling is the linear map raw/10000, and it maps
[-10000, 10000] into [-1, 1]. -/
theorem rescale_ndvi_linear_bounds :
    (∀ raw : ℚ, rescale_ndvi raw = raw / 10000) ∧
    ∀ raw : ℚ, -10000 ≤ raw → raw ≤ 10000 →
      -1 ≤ rescale_ndvi raw ∧ rescale_ndvi raw ≤ 1 := by
  refine ⟨fun raw => rfl, fun raw h1 h2 => ⟨?_, ?_⟩⟩ <;>
    · unfold rescale_ndvi
      linarith

/-- C4 witness: the bounds at the concrete raw value 2500. -/
theorem rescale_ndvi_linear_bounds_witness :
    -1 ≤ rescale_ndvi 2500 ∧ rescale_ndvi 2500 ≤ 1 :=
  rescale_ndvi_linear_bounds.2 2500 (by norm_num) (by norm_num)

/-- C5 counterexample: an image whose timestamp is 12 hours after the
target (image 43200000 ms, target 0 ms) strictly postdates the target,
yet days_difference is 0, not positive — timedelta.days floors, so the
claimed sign convention fails for sub-day offsets. -/
theorem days_difference_sign_counterexample :
    ((0 : Int) < 43200000 - 0 ∧ ¬ (0 < days_difference 43200000 0)) := by
  constructor
  · decide
  · decide

/-- C5 amended: days_difference is the floor of (image − target) in
whole days; it is negative whenever the image precedes the target, it
is positive exactly when the image postdates the target by at least one
full day, and it equals the exact signed day offset whenever the two
instants are a whole number of days apart. -/
theorem days_difference_floor_semantics (image target : Int) :
    days_difference image target = Int.fdiv (image - target) 86400000 ∧
    (image < target → days_difference image target < 0) ∧
    (0 < days_difference image target ↔ target + 86400000 ≤ image) ∧
    ∀ d : Int, image - target = d * 86400000 → days_difference image target = d := by
  have hd : days_difference image target = (image - target) / 86400000 := by
    unfold days_difference dayMillis
    exact Int.fdiv_eq_ediv _ (by norm_num)
  refine ⟨rfl, ?_, ?_, ?_⟩
  · intro h
    rw [hd]
    omega
  · rw [hd]
    omega
  · intro d h
    rw [hd, h]
    omega

/-- C5 amended witness: one full day before the target gives −1; two
whole days after gives +2. -/
theorem days_difference_floor_semantics_witness :
    days_difference 0 86400000 < 0 ∧ days_difference 172800000 0 = 2 :=
  ⟨(days_difference_floor_semantics 0 86400000).2.1 (by decide),
   (days_difference_floor_semantics 172800000 0).2.2.2 2 (by decide)⟩

/-- sort_time_series really sorts: its output is pairwise ascending in
the timestamp field. -/
theorem sort_time_series_sorted (l : List Sample) :
    (sort_time_series l).Pairwise (fun a b => a.timestamp ≤ b.timestamp) := by
  have htrans : ∀ a b c : Sample, decide (a.timestamp ≤ b.timestamp) = true →
      decide (b.timestamp ≤ c.timestamp) = true →
      decide (a.timestamp ≤ c.timestamp) = true := by
    intro a b c h1 h2
    simp only [decide_eq_true_eq] at h1 h2 ⊢
    exact le_trans h1 h2
  have htotal : ∀ a b : Sample,
      (decide (a.timestamp ≤ b.timestamp) || decide (b.timestamp ≤ a.timestamp)) = true := by
    intro a b
    rcases Int.le_total a.timestamp b.timestamp with h | h <;> simp [h]
  unfold sort_time_series
  exact (List.sorted_mergeSort htrans htotal l).imp (fun hab => of_decide_eq_true hab)

/-- Inversion of the success path of get_ndvi_history: a 200 response
pins down the startup state, the request fields, a non-empty filtered
collection, and the exact time_series and blooms values. -/
theorem get_ndvi_history_ok_inv (st : EEState) (req : Option NdviRequest)
    (catalog : List Image) (bounds : Image → Bool) (reduce : Image → Option ℚ)
    (fmt : Millis → String) (ts : List Sample) (bl : List Bloom)
    (h : get_ndvi_history st req catalog bounds reduce fmt = HistResult.ok ts bl) :
    ∃ data g target,
      req = some data ∧ data.geometry = some g ∧ data.target_date = some target ∧
      st.ee_init_ok = true ∧
      filterDate (target - 365 * dayMillis) target (catalog.filter bounds) ≠ [] ∧
      ts = sort_time_series (extract_time_series
        ((filterDate (target - 365 * dayMillis) target (catalog.filter bounds)).map
          (compute_mean reduce fmt))) ∧
      bl = detect_blooms ts := by
  unfold get_ndvi_history at h
  split at h
  · exact absurd h (by simp)
  · rename_i hst
    split at h
    · exact absurd h (by simp)
    · rename_i data
      split at h
      · exact absurd h (by simp)
      · rename_i g hg
        split at h
        · exact absurd h (by simp)
        · rename_i target htarget
          dsimp only at h
          split at h
          · exact absurd h (by simp)
          · rename_i hne
            split at h
            · exact absurd h (by simp)
            · rename_i hfne
              have hok := h
              refine ⟨data, g, target, rfl, hg, htarget, by simpa using hst, ?_, ?_, ?_⟩
              · intro hemp
                rw [hemp] at hne
                exact hne rfl
              · cases hok
                rfl
              · cases hok
                rfl

/-- C3: whatever order the catalog returns its images in, a successful
get_ndvi_history response carries a time_series sorted ascending by the
timestamp field. -/
theorem history_time_series_sorted (st : EEState) (req : Option NdviRequest)
    (catalog : List Image) (bounds : Image → Bool) (reduce : Image → Option ℚ)
    (fmt : Millis → String) (ts : List Sample) (bl : List Bloom)
    (h : get_ndvi_history st req catalog bounds reduce fmt = HistResult.ok ts bl) :
    List.Sorted (fun a b => a.timestamp ≤ b.timestamp) ts := by
  obtain ⟨data, g, target, -, -, -, -, -, hts, -⟩ :=
    get_ndvi_history_ok_inv st req catalog bounds reduce fmt ts bl h
  rw [hts]
  exact sort_time_series_sorted _

/-- C3 witness: a concrete one-image catalog run. -/
theorem history_time_series_sorted_witness :
    List.Sorted (fun a b : Sample => a.timestamp ≤ b.timestamp)
      [Sample.mk "d" (1/5) 0] :=
  history_time_series_sorted (EEState.mk true "")
    (some (NdviRequest.mk (some []) (some 86400000))) [Image.mk 0]
    (fun _ => true) (fun _ => some 2000) (fun _ => "d")
    [Sample.mk "d" (1/5) 0] []
    (by norm_num [get_ndvi_history, filterDate, compute_mean, extract_time_series,
      sort_time_series, detect_blooms, rescale_ndvi, dayMillis, threshold, mkBloom,
      List.mergeSort, List.merge, List.filterMap_cons, List.filterMap_nil, List.range'])

/-- The selected closest image of a non-empty collection exists and is
drawn from the collection. -/
theorem select_closest_mem (target : Millis) (l : List Image) (h : l ≠ []) :
    ∃ img, select_closest target l = some img ∧ img ∈ l := by
  obtain ⟨a, l₁, l₂, hhead, hsplit, -, -⟩ :=
    mergeSort_head_first_min (fun x => (x.time_start - target).natAbs) l h
  refine ⟨a, (select_closest_eq_head target l).trans hhead, ?_⟩
  rw [hsplit]
  simp

/-- C6: on every data route, an empty date-filtered collection produces
the 400 no-data response of that route — never a 500. -/
theorem empty_collection_yields_400 (st : EEState) (g : Geometry) (target : Millis)
    (catalog : List Image) (bounds : Image → Bool) (reduce : Image → Option ℚ)
    (fmt : Millis → String) (tile_of : Image → String)
    (hinit : st.ee_init_ok = true) :
    (filterDate (target - 30 * dayMillis) (target + 30 * dayMillis)
        (catalog.filter bounds) = [] →
      calculate_ndvi st (some (NdviRequest.mk (some g) (some target)))
          catalog bounds reduce fmt =
        CalcResult.err 400 "No MODIS data available within 30 days of the target date") ∧
    (filterDate (target - 30 * dayMillis) (target + 30 * dayMillis) catalog = [] →
      get_ndvi_tile_url st (some (TileRequest.mk (some target))) catalog tile_of fmt =
        TileResult.err 400 "No MODIS data available for the specified date range") ∧
    (filterDate (target - 365 * dayMillis) target (catalog.filter bounds) = [] →
      get_ndvi_history st (some (NdviRequest.mk (some g) (some target)))
          catalog bounds reduce fmt =
        HistResult.err 400 "No MODIS data available for this area in the past year") := by
  refine ⟨?_, ?_, ?_⟩ <;> intro hemp <;>
    simp [calculate_ndvi, get_ndvi_tile_url, get_ndvi_history, hinit, hemp]

/-- C6 witness: the three routes on an empty catalog. -/
theorem empty_collection_yields_400_witness :
    calculate_ndvi (EEState.mk true "") (some (NdviRequest.mk (some []) (some 0)))
        [] (fun _ => true) (fun _ => none) (fun _ => "") =
      CalcResult.err 400 "No MODIS data available within 30 days of the target date" ∧
    get_ndvi_tile_url (EEState.mk true "") (some (TileRequest.mk (some 0)))
        [] (fun _ => "") (fun _ => "") =
      TileResult.err 400 "No MODIS data available for the specified date range" ∧
    get_ndvi_history (EEState.mk true "") (some (NdviRequest.mk (some []) (some 0)))
        [] (fun _ => true) (fun _ => none) (fun _ => "") =
      HistResult.err 400 "No MODIS data available for this area in the past year" :=
  ⟨(empty_collection_yields_400 (EEState.mk true "") [] 0 [] (fun _ => true)
      (fun _ => none) (fun _ => "") (fun _ => "") rfl).1 rfl,
   (empty_collection_yields_400 (EEState.mk true "") [] 0 [] (fun _ => true)
      (fun _ => none) (fun _ => "") (fun _ => "") rfl).2.1 rfl,
   (empty_collection_yields_400 (EEState.mk true "") [] 0 [] (fun _ => true)
      (fun _ => none) (fun _ => "") (fun _ => "") rfl).2.2 rfl⟩

/-- C7: when the spatial mean reduction yields no value for the NDVI
band over the non-empty filtered collection, calculate-ndvi responds
400 with the no-data-for-area error, and no ndvi value is returned. -/
theorem reduce_none_yields_400 (st : EEState) (g : Geometry) (target : Millis)
    (catalog : List Image) (bounds : Image → Bool) (reduce : Image → Option ℚ)
    (fmt : Millis → String)
    (hinit : st.ee_init_ok = true)
    (hne : filterDate (target - 30 * dayMillis) (target + 30 * dayMillis)
      (catalog.filter bounds) ≠ [])
    (hred : ∀ img ∈ filterDate (target - 30 * dayMillis) (target + 30 * dayMillis)
      (catalog.filter bounds), reduce img = none) :
    calculate_ndvi st (some (NdviRequest.mk (some g) (some target)))
        catalog bounds reduce fmt =
      CalcResult.err 400 "No NDVI data available for this area" ∧
    ∀ q date dd,
      calculate_ndvi st (some (NdviRequest.mk (some g) (some target)))
        catalog bounds reduce fmt ≠ CalcResult.ok q date dd := by
  obtain ⟨img, hsel, hmem⟩ := select_closest_mem target _ hne
  have hlen : (filterDate (target - 30 * dayMillis) (target + 30 * dayMillis)
      (catalog.filter bounds)).length ≠ 0 :=
    fun hl => hne (List.length_eq_zero.mp hl)
  have h1 : calculate_ndvi st (some (NdviRequest.mk (some g) (some target)))
      catalog bounds reduce fmt =
      CalcResult.err 400 "No NDVI data available for this area" := by
    simp [calculate_ndvi, hinit, hlen, hsel, hred img hmem]
  refine ⟨h1, fun q date dd hcontra => ?_⟩
  rw [h1] at hcontra
  exact absurd hcontra (by simp)

/-- C7 witness: a one-image catalog whose reducer returns null. -/
theorem reduce_none_yields_400_witness :
    calculate_ndvi (EEState.mk true "") (some (NdviRequest.mk (some []) (some 0)))
        [Image.mk 0] (fun _ => true) (fun _ => none) (fun _ => "") =
      CalcResult.err 400 "No NDVI data available for this area" :=
  (reduce_none_yields_400 (EEState.mk true "") [] 0 [Image.mk 0] (fun _ => true)
    (fun _ => none) (fun _ => "") rfl (by decide) (fun img _ => rfl)).1

/-- C8: when Earth Engine initialization failed at startup, every data
route returns 500 carrying the captured error string, while /health
still responds with status 200. -/
theorem init_failure_disables_data_routes (st : EEState)
    (req1 : Option NdviRequest) (req2 : Option TileRequest) (req3 : Option NdviRequest)
    (catalog : List Image) (bounds : Image → Bool) (reduce : Image → Option ℚ)
    (fmt : Millis → String) (tile_of : Image → String) (td te : Option String)
    (hinit : st.ee_init_ok = false) :
    calculate_ndvi st req1 catalog bounds reduce fmt =
      CalcResult.err 500 ("Earth Engine not initialized: " ++ st.init_error) ∧
    get_ndvi_tile_url st req2 catalog tile_of fmt =
      TileResult.err 500 ("Earth Engine not initialized: " ++ st.init_error) ∧
    get_ndvi_history st req3 catalog bounds reduce fmt =
      HistResult.err 500 ("Earth Engine not initialized: " ++ st.init_error) ∧
    (health st td te).1 = 200 := by
  refine ⟨?_, ?_, ?_, rfl⟩ <;>
    simp [calculate_ndvi, get_ndvi_tile_url, get_ndvi_history, hinit]

/-- C8 witness: a concrete failed-startup state. -/
theorem init_failure_disables_data_routes_witness :
    calculate_ndvi (EEState.mk false "boom") none [] (fun _ => true)
        (fun _ => none) (fun _ => "") =
      CalcResult.err 500 ("Earth Engine not initialized: " ++ "boom") ∧
    get_ndvi_tile_url (EEState.mk false "boom") none [] (fun _ => "") (fun _ => "") =
      TileResult.err 500 ("Earth Engine not initialized: " ++ "boom") ∧
    get_ndvi_history (EEState.mk false "boom") none [] (fun _ => true)
        (fun _ => none) (fun _ => "") =
      HistResult.err 500 ("Earth Engine not initialized: " ++ "boom") ∧
    (health (EEState.mk false "boom") none none).1 = 200 :=
  init_failure_disables_data_routes (EEState.mk false "boom") none none none []
    (fun _ => true) (fun _ => none) (fun _ => "") (fun _ => "") none none rfl

/-- Membership in the extracted time series: exactly the features whose
ndvi property is non-null, with fields copied over. -/
theorem mem_extract_time_series (s : Sample) (features : List FeatureProps) :
    s ∈ extract_time_series features ↔
      ∃ props ∈ features, props.ndvi = some s.ndvi ∧
        s.date = props.date ∧ s.timestamp = props.timestamp := by
  unfold extract_time_series
  rw [List.mem_filterMap]
  constructor
  · rintro ⟨props, hmem, hf⟩
    split at hf
    · rename_i v hv
      obtain rfl := Option.some_inj.mp hf
      exact ⟨props, hmem, hv, rfl, rfl⟩
    · exact absurd hf (by simp)
  · rintro ⟨props, hmem, hv, hdate, hts⟩
    refine ⟨props, hmem, ?_⟩
    rw [hv]
    cases s
    simp_all

/-- C9: a successful get_ndvi_history run filters the catalog to the
365-day half-open trailing window ending at the target instant, reduces
each image of the filtered collection independently, discards null
reductions, and every returned sample carries the rescaled defined
reduction of one filtered image. -/
theorem history_window_and_samples (st : EEState) (g : Geometry) (target : Millis)
    (catalog : List Image) (bounds : Image → Bool) (reduce : Image → Option ℚ)
    (fmt : Millis → String)
    (hinit : st.ee_init_ok = true)
    (hne : filterDate (target - 365 * dayMillis) target (catalog.filter bounds) ≠ []) :
    ∃ ts bl,
      get_ndvi_history st (some (NdviRequest.mk (some g) (some target)))
          catalog bounds reduce fmt = HistResult.ok ts bl ∧
      (∀ img, img ∈ filterDate (target - 365 * dayMillis) target (catalog.filter bounds) ↔
        (img ∈ catalog ∧ bounds img = true ∧
         target - 365 * dayMillis ≤ img.time_start ∧ img.time_start < target)) ∧
      (∀ s ∈ ts, ∃ img v,
        img ∈ filterDate (target - 365 * dayMillis) target (catalog.filter bounds) ∧
        reduce img = some v ∧ s.ndvi = rescale_ndvi v ∧
        s.timestamp = img.time_start ∧ s.date = fmt img.time_start) ∧
      (∀ img ∈ filterDate (target - 365 * dayMillis) target (catalog.filter bounds),
        ∀ v, reduce img = some v →
          ∃ s ∈ ts, s.ndvi = rescale_ndvi v ∧ s.timestamp = img.time_start ∧
            s.date = fmt img.time_start) := by
  have hlen : (filterDate (target - 365 * dayMillis) target
      (catalog.filter bounds)).length ≠ 0 :=
    fun hl => hne (List.length_eq_zero.mp hl)
  refine ⟨sort_time_series (extract_time_series
      ((filterDate (target - 365 * dayMillis) target (catalog.filter bounds)).map
        (compute_mean reduce fmt))),
    detect_blooms (sort_time_series (extract_time_series
      ((filterDate (target - 365 * dayMillis) target (catalog.filter bounds)).map
        (compute_mean reduce fmt)))), ?_, ?_, ?_, ?_⟩
  · simp [get_ndvi_history, hinit, hlen]
  · intro img
    simp only [filterDate, List.mem_filter, Bool.and_eq_true, decide_eq_true_eq]
    tauto
  · intro s hs
    rw [sort_time_series, List.mem_mergeSort, mem_extract_time_series] at hs
    obtain ⟨props, hmem, hv, hdate, hts⟩ := hs
    obtain ⟨img, himg, rfl⟩ := List.mem_map.mp hmem
    unfold compute_mean at hv hdate hts
    cases hred : reduce img with
    | none => rw [hred] at hv; exact absurd hv (by simp)
    | some v =>
      rw [hred] at hv
      refine ⟨img, v, himg, hred, ?_, hts, hdate⟩
      simpa using hv.symm
  · intro img himg v hred
    refine ⟨Sample.mk (fmt img.time_start) (rescale_ndvi v) img.time_start, ?_, rfl, rfl, rfl⟩
    rw [sort_time_series, List.mem_mergeSort, mem_extract_time_series]
    exact ⟨compute_mean reduce fmt img, List.mem_map_of_mem _ himg, by simp [compute_mean, hred]⟩

/-- C9 witness: a one-image catalog with a defined reduction. -/
theorem history_window_and_samples_witness :
    ∃ ts bl,
      get_ndvi_history (EEState.mk true "") (some (NdviRequest.mk (some []) (some 86400000)))
          [Image.mk 0] (fun _ => true) (fun _ => some 2000) (fun _ => "d") =
        HistResult.ok ts bl ∧
      (∀ img, img ∈ filterDate (86400000 - 365 * dayMillis) 86400000
          ([Image.mk 0].filter (fun _ => true)) ↔
        (img ∈ [Image.mk 0] ∧ (fun _ : Image => true) img = true ∧
         86400000 - 365 * dayMillis ≤ img.time_start ∧ img.time_start < 86400000)) ∧
      (∀ s ∈ ts, ∃ img v,
        img ∈ filterDate (86400000 - 365 * dayMillis) 86400000
          ([Image.mk 0].filter (fun _ => true)) ∧
        (fun _ : Image => some (2000 : ℚ)) img = some v ∧ s.ndvi = rescale_ndvi v ∧
        s.timestamp = img.time_start ∧ s.date = (fun _ : Millis => "d") img.time_start) ∧
      (∀ img ∈ filterDate (86400000 - 365 * dayMillis) 86400000
          ([Image.mk 0].filter (fun _ => true)),
        ∀ v, (fun _ : Image => some (2000 : ℚ)) img = some v →
          ∃ s ∈ ts, s.ndvi = rescale_ndvi v ∧ s.timestamp = img.time_start ∧
            s.date = (fun _ : Millis => "d") img.time_start) :=
  history_window_and_samples (EEState.mk true "") [] 86400000 [Image.mk 0]
    (fun _ => true) (fun _ => some 2000) (fun _ => "d") rfl (by decide)

/-- A filterMap whose function, on members of the list, is an
if-guarded map, splits into filter followed by map. -/
theorem filterMap_eq_map_filter_of_mem {α β : Type} (f : α → Option β) (p : α → Bool)
    (g : α → β) (l : List α)
    (h : ∀ a ∈ l, f a = if p a then some (g a) else none) :
    l.filterMap f = (l.filter p).map g := by
  induction l with
  | nil => rfl
  | cons a t ih =>
    have ha := h a (by simp)
    have ht := ih (fun x hx => h x (by simp [hx]))
    by_cases hp : p a = true
    · rw [List.filterMap_cons, ha, if_pos hp, List.filter_cons, if_pos hp,
        List.map_cons, ht]
    · rw [List.filterMap_cons, ha, if_neg hp, List.filter_cons, if_neg hp, ht]

/-- detect_blooms is the map of bloomAt over the indices 1..len−1 whose
adjacent ndvi increase exceeds the threshold. -/
theorem detect_blooms_eq (ts : List Sample) :
    detect_blooms ts =
      ((List.range' 1 (ts.length - 1)).filter
        (fun i => decide (threshold <
          (ts.getD i default).ndvi - (ts.getD (i-1) default).ndvi))).map (bloomAt ts) := by
  unfold detect_blooms
  apply filterMap_eq_map_filter_of_mem
  intro i hi
  obtain ⟨h1, h2⟩ := List.mem_range'_1.mp hi
  have hilen : i < ts.length := by omega
  have hplen : i - 1 < ts.length := by omega
  have hcur : ts[i]? = some (ts.getD i default) := by
    rw [List.getElem?_eq_getElem hilen, List.getD_eq_getElem ts default hilen]
  have hprev : ts[i-1]? = some (ts.getD (i-1) default) := by
    rw [List.getElem?_eq_getElem hplen, List.getD_eq_getElem ts default hplen]
  rw [hcur, hprev]
  show (if threshold < (ts.getD i default).ndvi - (ts.getD (i-1) default).ndvi then
      some (mkBloom (ts.getD i default) (ts.getD (i-1) default)) else none) = _
  by_cases hthr : threshold < (ts.getD i default).ndvi - (ts.getD (i-1) default).ndvi
  · rw [if_pos hthr, if_pos (by simpa using hthr)]
    rfl
  · rw [if_neg hthr, if_neg (by simpa using hthr)]

/-- C10: in every successful get_ndvi_history response the blooms list
is the image of a strictly increasing list of time_series indices
i ≥ 1 under bloomAt (so each bloom copies time_series[i].date and
.ndvi and records the increase over time_series[i−1]); hence it has at
most len(time_series) − 1 entries, is empty when the series has fewer
than two samples, and follows the ascending order of the series. -/
theorem blooms_index_correspondence (st : EEState) (req : Option NdviRequest)
    (catalog : List Image) (bounds : Image → Bool) (reduce : Image → Option ℚ)
    (fmt : Millis → String) (ts : List Sample) (bl : List Bloom)
    (h : get_ndvi_history st req catalog bounds reduce fmt = HistResult.ok ts bl) :
    (∃ is : List Nat, is.Pairwise (· < ·) ∧ (∀ i ∈ is, 1 ≤ i ∧ i < ts.length) ∧
      bl = is.map (bloomAt ts)) ∧
    bl.length ≤ ts.length - 1 ∧
    (ts.length < 2 → bl = []) := by
  obtain ⟨data, g, target, -, -, -, -, -, -, hbl⟩ :=
    get_ndvi_history_ok_inv st req catalog bounds reduce fmt ts bl h
  rw [hbl, detect_blooms_eq]
  refine ⟨⟨(List.range' 1 (ts.length - 1)).filter
      (fun i => decide (threshold <
        (ts.getD i default).ndvi - (ts.getD (i-1) default).ndvi)), ?_, ?_, rfl⟩, ?_, ?_⟩
  · exact (List.pairwise_lt_range' 1 (ts.length - 1)).filter _
  · intro i hi
    obtain ⟨h1, h2⟩ := List.mem_range'_1.mp (List.mem_of_mem_filter hi)
    omega
  · rw [List.length_map]
    exact le_trans (List.length_filter_le _ _) (le_of_eq (List.length_range' 1 1 _))
  · intro hlt
    have hz : ts.length - 1 = 0 := by omega
    rw [hz]
    rfl

/-- C10 witness: a two-image catalog whose second sample rises by 0.8,
yielding exactly one bloom at index 1. -/
theorem blooms_index_correspondence_witness :
    (∃ is : List Nat, is.Pairwise (· < ·) ∧
      (∀ i ∈ is, 1 ≤ i ∧
        i < ([Sample.mk "" (1/10) 0, Sample.mk "" (9/10) 86400000] : List Sample).length) ∧
      [Bloom.mk "" (9/10) (4/5)] =
        is.map (bloomAt [Sample.mk "" (1/10) 0, Sample.mk "" (9/10) 86400000])) ∧
    ([Bloom.mk "" (9/10) (4/5)] : List Bloom).length ≤
      ([Sample.mk "" (1/10) 0, Sample.mk "" (9/10) 86400000] : List Sample).length - 1 ∧
    (([Sample.mk "" (1/10) 0, Sample.mk "" (9/10) 86400000] : List Sample).length < 2 →
      [Bloom.mk "" (9/10) (4/5)] = []) :=
  blooms_index_correspondence (EEState.mk true "")
    (some (NdviRequest.mk (some []) (some 864000000)))
    [Image.mk 0, Image.mk 86400000] (fun _ => true)
    (fun img => if img.time_start = 0 then some 1000 else some 9000) (fun _ => "")
    [Sample.mk "" (1/10) 0, Sample.mk "" (9/10) 86400000] [Bloom.mk "" (9/10) (4/5)]
    (by norm_num [get_ndvi_history, filterDate, compute_mean, extract_time_series,
      sort_time_series, detect_blooms, rescale_ndvi, dayMillis, threshold, mkBloom,
      List.mergeSort, List.merge, List.filterMap_cons, List.filterMap_nil, List.range'])
